import Mathlib

/-!
Verification of the deuxdrop signup / identity-attestation protocol engine
(src/servers/lib/rdservers/signup/server.js) against its specification.

The embedding models the JavaScript module shallowly:
- JS exceptions become `Except TaskErrorKind`; JS runtime errors raised by
  defects in the source (reading a property of `undefined`, calling a
  non-function, referencing an undefined variable) are embedded as
  `TaskErrorKind.jsError` with a message naming the defect.
- External collaborators (the pubident / keyops crypto primitives, the
  jwcrypto certificate library, the account store) are oracle parameters,
  per the spec's external-interface section.
- The generic task engine (rdcommon/taskidiom) is not part of the corpus;
  its two disciplines (soft-failure, early-return) and the fatal-exception
  fallback are modelled from the spec where noted.
-/

namespace Deuxdrop

/-- Challenge mechanism constant from the source: `CHALLENGE_NEVER`. -/
def CHALLENGE_NEVER : String := "never"

/-- Challenge mechanism constant from the source: `CHALLENGE_ALREADY_SIGNED_UP`. -/
def CHALLENGE_ALREADY_SIGNED_UP : String := "already-signed-up"

/-- Challenge mechanism constant from the source: `CHALLENGE_INVALID_BROWSERID`. -/
def CHALLENGE_INVALID_BROWSERID : String := "bad-browserid-assertion"

/-- Challenge mechanism constant from the source: `CHALLENGE_SERVER_PROBLEM`. -/
def CHALLENGE_SERVER_PROBLEM : String := "server-problem-try-again-later"

/-- Kinds of exceptions a step can raise.  The first three mirror the
`rdcommon/taskerrors` classes thrown by the validator; `jsError` embeds a
JavaScript runtime error (TypeError / ReferenceError) raised by a defect in
the source itself. -/
inductive TaskErrorKind where
  | malformedPayload
  | keyMismatch
  | unauthorizedUserDataLeak
  | jsError (message : String)
deriving DecidableEq

/-- The portable-contacts profile carried by a self-ident payload.  Fields are
`Option` so that JS property absence (`hasOwnProperty` false / `undefined`) is
distinguishable from presence.  Note the source reads both `poco.emails`
(validated) and `poco.email` (never validated), so both appear here. -/
structure Poco where
  displayName : Option String
  emails : Option (List String)
  email : Option (List String)
deriving DecidableEq

/-- The `root` sub-object of a person self-ident payload. -/
structure RootKeys where
  rootSignPubKey : String
  longtermSignPubKey : String
deriving DecidableEq

/-- Result of `$pubident.assertGetPersonSelfIdent`: the parsed, signature-checked
self-ident payload. -/
structure PersonSelfIdentPayload where
  root : RootKeys
  poco : Poco
  transitServerIdent : String
deriving DecidableEq

/-- Result of `$keyops.assertCheckGetAttestation` on a client-auth blob. -/
structure ClientAttestation where
  authorizedKey : String
deriving DecidableEq

/-- The inbound signup request (`ClientSignupBundle` in the source docs).
`because` is a JS object mapping challenge-kind keys to challenge payloads;
we model it as an association list in the object's key-iteration order. -/
structure ClientSignupBundle where
  selfIdent : String
  clientAuths : List String
  storeKeyring : String
  because : List (String × String)
deriving DecidableEq

/-- Oracle for the external crypto primitives (spec section 6: identity
primitives "parse-and-verify functions that throw a typed error on any
structural or cryptographic failure").  Blobs are opaque strings. -/
structure CryptoEnv where
  assertGetPersonSelfIdent : String → Except TaskErrorKind PersonSelfIdentPayload
  assertCheckGetAttestation : String → String → List String → Except TaskErrorKind ClientAttestation

/-- The server configuration reachable through `conn.serverConfig`.  The
account store (`authApi`) is folded in as an oracle: `accounts` is the set of
root signing keys for which `serverCheckUserAccount` answers true, and
`createOk` says whether `serverCreateUserAccount` succeeds. -/
structure ServerConfig where
  selfIdentBlob : String
  accounts : List String
  createOk : Bool

/-- The connection a signup request arrives on. -/
structure Conn where
  clientPublicKey : String
  serverConfig : ServerConfig

/-- Step `validateSelfIdent` of `ValidateSignupRequestTask` (source lines
164-177): parse the self-ident blob (throws on failure), require
`transitServerIdent === serverConfig.selfIdentBlob` (else KeyMismatchError),
and require `poco.hasOwnProperty("displayName")` (else MalformedPayloadError).
The source checks only property presence, not non-emptiness. -/
def validateSelfIdent (env : CryptoEnv) (msg : ClientSignupBundle)
    (serverConfig : ServerConfig) : Except TaskErrorKind PersonSelfIdentPayload := do
  let personSelfIdentPayload ← env.assertGetPersonSelfIdent msg.selfIdent
  if personSelfIdentPayload.transitServerIdent ≠ serverConfig.selfIdentBlob then
    throw TaskErrorKind.keyMismatch
  if personSelfIdentPayload.poco.displayName = none then
    throw TaskErrorKind.malformedPayload
  pure personSelfIdentPayload

/-- JS object property assignment `m[k] = v`: overwrite if the key exists,
append otherwise.  Models the `clientAuthsMap[clientAuth.authorizedKey] =
clientAuthBlobs[iAuth]` accumulation. -/
def objSet (m : List (String × String)) (k v : String) : List (String × String) :=
  if m.any (fun p => p.1 == k) then
    m.map (fun p => if p.1 == k then (k, v) else p)
  else m ++ [(k, v)]

/-- Successful output of the validator: the payload plus the map of
authorized-client-key to authorization blob. -/
structure ValidBits where
  selfIdentPayload : PersonSelfIdentPayload
  clientAuthsMap : List (String × String)
deriving DecidableEq

/-- The `for (var iAuth ...)` loop of step `validateClientAuth` (source lines
196-203): check each blob's attestation against the authorized keys (a throw
aborts the whole step), accumulate the map, and track whether any attestation
names the connected client's public key. -/
def checkClientAuths (env : CryptoEnv) (authorizedKeys : List String)
    (clientPublicKey : String) :
    List String → List (String × String) → Bool →
    Except TaskErrorKind (List (String × String) × Bool)
  | [], clientAuthsMap, found => pure (clientAuthsMap, found)
  | blob :: rest, clientAuthsMap, found => do
    let clientAuth ← env.assertCheckGetAttestation blob "client" authorizedKeys
    checkClientAuths env authorizedKeys clientPublicKey rest
      (objSet clientAuthsMap clientAuth.authorizedKey blob)
      (found || (clientAuth.authorizedKey == clientPublicKey))

/-- Step `validateClientAuth` of `ValidateSignupRequestTask` (source lines
182-217): require a non-empty `clientAuths` array (else
MalformedPayloadError), verify every attestation against the long-term
signing key, and require that the connected peer's public key was named by
one of them (else UnauthorizedUserDataLeakError). -/
def validateClientAuth (env : CryptoEnv) (msg : ClientSignupBundle)
    (clientPublicKey : String) (personSelfIdentPayload : PersonSelfIdentPayload) :
    Except TaskErrorKind ValidBits := do
  if msg.clientAuths.isEmpty then
    throw TaskErrorKind.malformedPayload
  let authorizedKeys := [personSelfIdentPayload.root.longtermSignPubKey]
  let r ← checkClientAuths env authorizedKeys clientPublicKey msg.clientAuths [] false
  if !r.2 then
    throw TaskErrorKind.unauthorizedUserDataLeak
  pure { selfIdentPayload := personSelfIdentPayload, clientAuthsMap := r.1 }

/-- Modelled from the spec: the soft-failure discipline of
`taskMaster.defineSoftFailureTask` (rdcommon/taskidiom, not in the corpus) —
"any step that fails causes the whole task to resolve successfully with a
sentinel not-valid value (boolean false)".  The two steps themselves
(`validateSelfIdent`, `validateClientAuth`) are translated from the source;
`none` is the false sentinel the parent task receives. -/
def validateSignupRequest (env : CryptoEnv) (msg : ClientSignupBundle)
    (clientPublicKey : String) (serverConfig : ServerConfig) : Option ValidBits :=
  match (do
      let p ← validateSelfIdent env msg serverConfig
      validateClientAuth env msg clientPublicKey p :
      Except TaskErrorKind ValidBits) with
  | Except.ok v => some v
  | Except.error _ => none

/-- Result of `$jwc_vep.unbundleCertsAndAssertion`. -/
structure VepBundle where
  certificates : List String
  assertion : String
deriving DecidableEq

/-- What the external `JWCert.verifyChain` call does with the callbacks the
source hands it: invoke `successCB` with a verified key and principal e-mail,
invoke `errorCB`, or invoke neither (the source's `rootCB` never calls
`next`, so the library may simply never settle). -/
inductive ChainBehavior where
  | callsSuccess (pk : String) (principalEmail : String)
  | callsError (err : String)
  | noCallback
deriving DecidableEq

/-- Oracle for the external jwcrypto library.  `syncCallbacks` says whether
`verifyChain` invokes its callbacks synchronously (before returning) or on a
later tick; the library leaves this unspecified, so the model is parametric
in it. -/
structure BrowserIdEnv where
  unbundleCertsAndAssertion : String → Option VepBundle
  verifyChain : List String → ChainBehavior
  syncCallbacks : Bool

/-- The `verifyBrowserId` impl method (source lines 356-411), translated with
its defects intact:
- the precondition requires `poco.emails` to be exactly one string, but the
  next line reads `poco.email[0]` (singular) — a TypeError when `poco.email`
  is absent;
- `var deferred = $Q.defer` never calls `defer`, so `deferred.promise` is
  `undefined` (the function object has no such property) and the method
  returns `undefined` — never a promise — whenever it reaches the chain
  verification; with synchronous callbacks, `deferred.resolve` (on the
  success path, first `new jwt.JWT()` with `jwt` unbound) raises inside the
  callback instead.
Result: `Except.ok (some s)` is a synchronous outcome string, `Except.ok
none` is a falsy return (`null`/`undefined`), `Except.error` is a thrown
JS error. -/
def verifyBrowserId (selfIdentPayload : PersonSelfIdentPayload)
    (env : BrowserIdEnv) (assertion : String) :
    Except TaskErrorKind (Option String) :=
  match selfIdentPayload.poco.emails with
  | some [_] =>
    match selfIdentPayload.poco.email with
    | none => Except.error (TaskErrorKind.jsError "TypeError: poco.email is undefined")
    | some _ =>
      match env.unbundleCertsAndAssertion assertion with
      | none => Except.ok (some CHALLENGE_INVALID_BROWSERID)
      | some bundle =>
        if env.syncCallbacks then
          match env.verifyChain bundle.certificates with
          | ChainBehavior.callsSuccess _ _ =>
            Except.error (TaskErrorKind.jsError "ReferenceError: jwt is not defined")
          | ChainBehavior.callsError _ =>
            Except.error (TaskErrorKind.jsError "TypeError: deferred.resolve is not a function")
          | ChainBehavior.noCallback => Except.ok none
        else Except.ok none
  | _ => Except.ok (some CHALLENGE_INVALID_BROWSERID)

/-- The hard-coded challenge catalog set by step `determineChallenges`
(source line 265). -/
def signupChallenges : List String := ["none", "browserid"]

/-- Step `checkOrGenerateChallenge` (source lines 271-312), translated with
its defects intact.  The `for (var because in this.msg.because)` loop skips
kinds outside the catalog, runs `verifyBrowserId` for `browserid`, and leaves
the result `null` for `none`.  Because `verifyBrowserId` can never return an
actual promise (see its docstring), the `promises` array stays empty and the
`$Q.all` continuation is dead code; a truthy synchronous result reaches
`return this.respondWithChallenge(problemo)` where `problemo` is an undefined
variable — a ReferenceError, thrown while evaluating the argument, so no
challenge is written.  The unused `var passed = this.challenges.indexOf('none')
!== -1` binding has no effect on control flow and is omitted.  `Except.ok ()`
means the step falls through to the signup step. -/
def checkOrGenerateChallenge (selfIdentPayload : PersonSelfIdentPayload)
    (env : BrowserIdEnv) : List (String × String) → Except TaskErrorKind Unit
  | [] => Except.ok ()
  | (because, payload) :: rest =>
    if ¬ signupChallenges.contains because then
      checkOrGenerateChallenge selfIdentPayload env rest
    else if because = "browserid" then
      match verifyBrowserId selfIdentPayload env payload with
      | Except.error e => Except.error e
      | Except.ok (some _) =>
        Except.error (TaskErrorKind.jsError "ReferenceError: problemo is not defined")
      | Except.ok none => checkOrGenerateChallenge selfIdentPayload env rest
    else if because = "none" then
      checkOrGenerateChallenge selfIdentPayload env rest
    else
      Except.error (TaskErrorKind.jsError "Error: Unimplemented but server supported challenge")

/-- A message written to the peer over the signup endpoint. -/
inductive OutMessage where
  | challenge (mechanism : String)
  | signedUp
deriving DecidableEq

/-- A call made to the external account store (`authApi`), recorded in
invocation order. -/
inductive StoreCall where
  | checkUserAccount (rootSignPubKey : String)
  | createUserAccount (rootSignPubKey : String)
deriving DecidableEq

/-- The observable outcome of one run of the signup task: the messages
written to the peer (in order), whether the connection was closed, and the
account-store calls issued (in order). -/
structure RunResult where
  messages : List OutMessage
  closed : Bool
  storeCalls : List StoreCall
deriving DecidableEq

/-- The `respondWithChallenge` impl method (source lines 337-345): write a
`{type:'challenge', challenge:{mechanism}}` message, close the connection,
and early-return out of the task. -/
def respondWithChallenge (storeCalls : List StoreCall) (challengeType : String) : RunResult :=
  { messages := [OutMessage.challenge challengeType], closed := true,
    storeCalls := storeCalls }

/-- Modelled from the spec: the early-return discipline of
`taskMaster.defineEarlyReturnTask` and the fatal-exception policy
(rdcommon/taskidiom, not in the corpus) — steps run strictly in declaration
order, `earlyReturn` skips the remaining steps, and "any other exception
escaping a task ... must close the peer's connection with a generic
`server-problem-try-again-later`".  The step bodies
(`validateSignupRequest` .. `tellThemTheyAreSignedUp`, source lines 221-335)
are translated from the source:
1. run the soft-failure validator; on its false sentinel respond `never`;
2. `serverCheckUserAccount(rootSignPubKey)`; if an account exists respond
   `already-signed-up`;
3. `checkOrGenerateChallenge`; a thrown step error hits the engine fallback;
4. `serverCreateUserAccount`, then write `{type:'signedUp'}` and close. -/
def processSignup (env : CryptoEnv) (bidEnv : BrowserIdEnv)
    (msg : ClientSignupBundle) (conn : Conn) : RunResult :=
  match validateSignupRequest env msg conn.clientPublicKey conn.serverConfig with
  | none => respondWithChallenge [] CHALLENGE_NEVER
  | some validBits =>
    let rootKey := validBits.selfIdentPayload.root.rootSignPubKey
    if conn.serverConfig.accounts.contains rootKey then
      respondWithChallenge [StoreCall.checkUserAccount rootKey] CHALLENGE_ALREADY_SIGNED_UP
    else
      match checkOrGenerateChallenge validBits.selfIdentPayload bidEnv msg.because with
      | Except.error _ =>
        respondWithChallenge [StoreCall.checkUserAccount rootKey] CHALLENGE_SERVER_PROBLEM
      | Except.ok _ =>
        if conn.serverConfig.createOk then
          { messages := [OutMessage.signedUp], closed := true,
            storeCalls := [StoreCall.checkUserAccount rootKey,
                           StoreCall.createUserAccount rootKey] }
        else
          respondWithChallenge
            [StoreCall.checkUserAccount rootKey, StoreCall.createUserAccount rootKey]
            CHALLENGE_SERVER_PROBLEM

/-- One endpoint entry of the server definition. -/
structure EndpointDef where
  serverConfig : ServerConfig
  authVerifier : String → String → Bool

/-- The two endpoints returned by `exports.makeServerDef` (source lines
470-506). -/
structure ServerDef where
  signupEndpoint : EndpointDef
  phonebookEndpoint : EndpointDef

/-- `exports.makeServerDef` (source lines 470-506): both the
`signup.deuxdrop` and `phonebook.deuxdrop` endpoints install an
`authVerifier(endpoint, clientKey)` whose body is `return true`. -/
def makeServerDef (serverConfig : ServerConfig) : ServerDef :=
  { signupEndpoint := { serverConfig := serverConfig, authVerifier := fun _ _ => true },
    phonebookEndpoint := { serverConfig := serverConfig, authVerifier := fun _ _ => true } }

/-! Concrete fixtures for witnesses and counterexamples.  `mkCryptoEnv p`
is a crypto oracle under which the blob "good-self-ident" parses to `p`,
the blob "auth-conn" attests the key "conn-key", the blob "auth-other"
attests the key "other-key" (both only against `p`'s long-term signing
key), and everything else throws. -/

def mkPayload (rootKey ltKey : String) (poco : Poco) (transit : String) :
    PersonSelfIdentPayload :=
  { root := { rootSignPubKey := rootKey, longtermSignPubKey := ltKey },
    poco := poco, transitServerIdent := transit }

def mkCryptoEnv (p : PersonSelfIdentPayload) : CryptoEnv :=
  { assertGetPersonSelfIdent := fun blob =>
      if blob = "good-self-ident" then Except.ok p
      else Except.error TaskErrorKind.malformedPayload,
    assertCheckGetAttestation := fun blob _ keys =>
      if keys = [p.root.longtermSignPubKey] then
        if blob = "auth-conn" then Except.ok { authorizedKey := "conn-key" }
        else if blob = "auth-other" then Except.ok { authorizedKey := "other-key" }
        else Except.error TaskErrorKind.malformedPayload
      else Except.error TaskErrorKind.malformedPayload }

/-- A BrowserID oracle whose unbundling always fails; used where the
browserid path is not supposed to reach the certificate machinery. -/
def bidInert : BrowserIdEnv :=
  { unbundleCertsAndAssertion := fun _ => none,
    verifyChain := fun _ => ChainBehavior.noCallback,
    syncCallbacks := false }

/-- The server's own configuration in concrete runs: its published self-ident
blob is "our-blob", no accounts exist, creation succeeds. -/
def baseConfig : ServerConfig :=
  { selfIdentBlob := "our-blob", accounts := [], createOk := true }

/-- A connection whose peer is the key "conn-key" (the one "auth-conn"
attests). -/
def baseConn : Conn := { clientPublicKey := "conn-key", serverConfig := baseConfig }

/-- C10: for every endpoint name and every client public key, the
connection-level authVerifier of both the signup.deuxdrop and
phonebook.deuxdrop endpoints returns true — no client is ever rejected at
connection establishment. -/
theorem c10_authVerifier_always_true (serverConfig : ServerConfig)
    (endpoint clientKey : String) :
    (makeServerDef serverConfig).signupEndpoint.authVerifier endpoint clientKey = true ∧
    (makeServerDef serverConfig).phonebookEndpoint.authVerifier endpoint clientKey = true :=
  ⟨rfl, rfl⟩

/-- C5: every completed run of the signup task writes exactly one terminal
message to the peer and closes the connection, for every possible input.
(The fatal-exception fallback of the task engine is modelled from the spec;
see `processSignup`.) -/
theorem c5_exactly_one_terminal_message (env : CryptoEnv) (bidEnv : BrowserIdEnv)
    (msg : ClientSignupBundle) (conn : Conn) :
    (processSignup env bidEnv msg conn).messages.length = 1 ∧
    (processSignup env bidEnv msg conn).closed = true := by
  unfold processSignup
  cases hv : validateSignupRequest env msg conn.clientPublicKey conn.serverConfig with
  | none => exact ⟨rfl, rfl⟩
  | some vb =>
    by_cases hacc :
        vb.selfIdentPayload.root.rootSignPubKey ∈ conn.serverConfig.accounts
    · simp [hacc, respondWithChallenge]
    · cases hc : checkOrGenerateChallenge vb.selfIdentPayload bidEnv msg.because with
      | error e => simp [hacc, hc, respondWithChallenge]
      | ok u =>
        by_cases hcr : conn.serverConfig.createOk = true <;>
          simp [hacc, hc, hcr, respondWithChallenge]

def poco1 : Poco := { displayName := some "Alice", emails := none, email := none }

def payload1 : PersonSelfIdentPayload := mkPayload "root-1" "lt-1" poco1 "our-blob"

def msg1 : ClientSignupBundle :=
  { selfIdent := "good-self-ident", clientAuths := ["auth-conn"],
    storeKeyring := "kr-1", because := [("browserid", "assertion-1")] }

/-- C1 (code bug): although "none" is in the hard-coded challenge catalog —
and the source's own comment says "you pass without proof if 'none' is in
the list" — the `passed` flag is never consulted: a `because` payload
carrying a browserid entry still invokes the browserid verifier, and on its
synchronous failure the undefined variable `problemo` raises a
ReferenceError, so the run ends in the engine's server-problem fallback and
provisioning is never reached. -/
theorem c1_browserid_because_entry_not_ignored :
    signupChallenges.contains "none" = true ∧
    processSignup (mkCryptoEnv payload1) bidInert msg1 baseConn =
      respondWithChallenge [StoreCall.checkUserAccount "root-1"] CHALLENGE_SERVER_PROBLEM := by
  exact ⟨rfl, by decide⟩

def poco6 : Poco :=
  { displayName := some "Carol", emails := some ["carol@example.com"],
    email := some ["carol@example.com"] }

def payload6 : PersonSelfIdentPayload := mkPayload "root-6" "lt-6" poco6 "our-blob"

def bid6async : BrowserIdEnv :=
  { unbundleCertsAndAssertion := fun a =>
      some { certificates := ["cert-issuer", "cert-leaf"], assertion := a },
    verifyChain := fun _ => ChainBehavior.callsError "certificate expired",
    syncCallbacks := false }

def bid6sync : BrowserIdEnv :=
  { unbundleCertsAndAssertion := fun a =>
      some { certificates := ["cert-issuer", "cert-leaf"], assertion := a },
    verifyChain := fun _ => ChainBehavior.callsError "certificate expired",
    syncCallbacks := true }

/-- C6 (code bug): on a bundle that unpacks but whose chain verification
fails (e.g. expired), the verifier never delivers
`server-problem-try-again-later`: `var deferred = $Q.defer` never calls
`defer`, so the returned `deferred.promise` is `undefined` — with
asynchronous callbacks the verifier silently passes, and with synchronous
callbacks `deferred.resolve` raises a TypeError inside `errorCB`. -/
theorem c6_chain_error_outcome_is_lost :
    verifyBrowserId payload6 bid6async "assertion-6" = Except.ok none ∧
    verifyBrowserId payload6 bid6sync "assertion-6" =
      Except.error (TaskErrorKind.jsError "TypeError: deferred.resolve is not a function") := by
  exact ⟨rfl, rfl⟩

def poco7 : Poco :=
  { displayName := some "Dave", emails := some ["dave@example.com"], email := none }

def payload7 : PersonSelfIdentPayload := mkPayload "root-7" "lt-7" poco7 "our-blob"

def bid7 : BrowserIdEnv :=
  { unbundleCertsAndAssertion := fun a =>
      some { certificates := ["cert-issuer", "cert-leaf"], assertion := a },
    verifyChain := fun _ => ChainBehavior.callsSuccess "pk-7" "mallory@evil.example",
    syncCallbacks := true }

/-- C7 (code bug): the e-mail comparison against the asserted principal is
never reached for a profile that satisfies the validated `poco.emails`
precondition, because the source reads `poco.email[0]` (singular, never
validated): on an ordinary profile carrying only `emails`, the verifier
throws a TypeError before any unbundling or comparison, so a mismatching
principal cannot yield `bad-browserid-assertion`. -/
theorem c7_wrong_email_field_defect :
    verifyBrowserId payload7 bid7 "assertion-7" =
      Except.error (TaskErrorKind.jsError "TypeError: poco.email is undefined") := rfl

def poco8 : Poco := { displayName := some "Erin", emails := none, email := none }

def payload8 : PersonSelfIdentPayload := mkPayload "root-8" "lt-8" poco8 "our-blob"

def msg8 : ClientSignupBundle :=
  { selfIdent := "good-self-ident", clientAuths := ["auth-conn"],
    storeKeyring := "kr-8", because := [("browserid", "assertion-8")] }

/-- C8 (code bug): a verifier that fails synchronously (here: the browserid
verifier rejecting a profile without a usable e-mail) does not get its
outcome issued to the peer: the aggregation step's
`return this.respondWithChallenge(problemo)` references the undefined
variable `problemo`, raising a ReferenceError while evaluating the argument,
so the peer instead receives the engine's server-problem fallback. -/
theorem c8_sync_failure_outcome_not_issued :
    verifyBrowserId payload8 bidInert "assertion-8" =
      Except.ok (some CHALLENGE_INVALID_BROWSERID) ∧
    checkOrGenerateChallenge payload8 bidInert [("browserid", "assertion-8")] =
      Except.error (TaskErrorKind.jsError "ReferenceError: problemo is not defined") ∧
    processSignup (mkCryptoEnv payload8) bidInert msg8 baseConn =
      respondWithChallenge [StoreCall.checkUserAccount "root-8"] CHALLENGE_SERVER_PROBLEM := by
  refine ⟨rfl, rfl, by decide⟩

def poco9 : Poco := { displayName := some "", emails := none, email := none }

def payload9 : PersonSelfIdentPayload := mkPayload "root-9" "lt-9" poco9 "our-blob"

def msg9 : ClientSignupBundle :=
  { selfIdent := "good-self-ident", clientAuths := ["auth-conn"],
    storeKeyring := "kr-9", because := [] }

/-- C9 counterexample: a bundle whose poco carries `displayName` as the empty
string is NOT rejected — `validateSelfIdent` only tests
`hasOwnProperty("displayName")`, so the step succeeds. -/
theorem c9_counterexample_empty_displayName_accepted :
    validateSelfIdent (mkCryptoEnv payload9) msg9 baseConfig = Except.ok payload9 := rfl

/-! Helper lemmas characterising the validator steps on each failure class. -/

theorem validateSelfIdent_parse_error (env : CryptoEnv) (msg : ClientSignupBundle)
    (serverConfig : ServerConfig) (e : TaskErrorKind)
    (h : env.assertGetPersonSelfIdent msg.selfIdent = Except.error e) :
    validateSelfIdent env msg serverConfig = Except.error e := by
  unfold validateSelfIdent
  simp [h, bind, Except.bind]

theorem validateSelfIdent_keyMismatch (env : CryptoEnv) (msg : ClientSignupBundle)
    (serverConfig : ServerConfig) (p : PersonSelfIdentPayload)
    (hparse : env.assertGetPersonSelfIdent msg.selfIdent = Except.ok p)
    (htransit : p.transitServerIdent ≠ serverConfig.selfIdentBlob) :
    validateSelfIdent env msg serverConfig = Except.error TaskErrorKind.keyMismatch := by
  unfold validateSelfIdent
  simp [hparse, htransit, bind, Except.bind, throw, throwThe, MonadExceptOf.throw]

theorem validateSelfIdent_displayName_error (env : CryptoEnv) (msg : ClientSignupBundle)
    (serverConfig : ServerConfig) (p : PersonSelfIdentPayload)
    (hparse : env.assertGetPersonSelfIdent msg.selfIdent = Except.ok p)
    (htransit : p.transitServerIdent = serverConfig.selfIdentBlob)
    (hname : p.poco.displayName = none) :
    validateSelfIdent env msg serverConfig = Except.error TaskErrorKind.malformedPayload := by
  unfold validateSelfIdent
  simp [hparse, htransit, hname, bind, Except.bind, pure, Except.pure,
    throw, throwThe, MonadExceptOf.throw]

theorem validateSelfIdent_ok (env : CryptoEnv) (msg : ClientSignupBundle)
    (serverConfig : ServerConfig) (p : PersonSelfIdentPayload)
    (hparse : env.assertGetPersonSelfIdent msg.selfIdent = Except.ok p)
    (htransit : p.transitServerIdent = serverConfig.selfIdentBlob)
    (hname : p.poco.displayName ≠ none) :
    validateSelfIdent env msg serverConfig = Except.ok p := by
  unfold validateSelfIdent
  simp [hparse, htransit, hname, bind, Except.bind, pure, Except.pure]

theorem validateSignupRequest_eq_none_of_selfIdent_error (env : CryptoEnv)
    (msg : ClientSignupBundle) (clientPublicKey : String) (serverConfig : ServerConfig)
    (e : TaskErrorKind)
    (h : validateSelfIdent env msg serverConfig = Except.error e) :
    validateSignupRequest env msg clientPublicKey serverConfig = none := by
  unfold validateSignupRequest
  simp [h, bind, Except.bind]

theorem validateSignupRequest_eq_none_of_clientAuth_error (env : CryptoEnv)
    (msg : ClientSignupBundle) (clientPublicKey : String) (serverConfig : ServerConfig)
    (p : PersonSelfIdentPayload) (e : TaskErrorKind)
    (h1 : validateSelfIdent env msg serverConfig = Except.ok p)
    (h2 : validateClientAuth env msg clientPublicKey p = Except.error e) :
    validateSignupRequest env msg clientPublicKey serverConfig = none := by
  unfold validateSignupRequest
  simp [h1, h2, bind, Except.bind]

theorem processSignup_eq_never_of_invalid (env : CryptoEnv) (bidEnv : BrowserIdEnv)
    (msg : ClientSignupBundle) (conn : Conn)
    (h : validateSignupRequest env msg conn.clientPublicKey conn.serverConfig = none) :
    processSignup env bidEnv msg conn =
      { messages := [OutMessage.challenge CHALLENGE_NEVER], closed := true,
        storeCalls := [] } := by
  unfold processSignup
  rw [h]
  rfl

/-- C9 amended: the validator rejects as malformed payload exactly the
bundles whose poco lacks a `displayName` property — the source checks
`hasOwnProperty("displayName")` only, so a present-but-empty `displayName`
is accepted (see the counterexample above). -/
theorem c9_amended_missing_displayName_rejected (env : CryptoEnv)
    (msg : ClientSignupBundle) (serverConfig : ServerConfig)
    (p : PersonSelfIdentPayload)
    (hparse : env.assertGetPersonSelfIdent msg.selfIdent = Except.ok p)
    (htransit : p.transitServerIdent = serverConfig.selfIdentBlob)
    (hname : p.poco.displayName = none) :
    validateSelfIdent env msg serverConfig = Except.error TaskErrorKind.malformedPayload :=
  validateSelfIdent_displayName_error env msg serverConfig p hparse htransit hname

def poco9b : Poco := { displayName := none, emails := none, email := none }

def payload9b : PersonSelfIdentPayload := mkPayload "root-9b" "lt-9b" poco9b "our-blob"

def msg9b : ClientSignupBundle :=
  { selfIdent := "good-self-ident", clientAuths := ["auth-conn"],
    storeKeyring := "kr-9b", because := [] }

/-- C9 amended, witness: a concrete bundle with no `displayName` property is
rejected as malformed payload. -/
theorem c9_amended_witness :
    validateSelfIdent (mkCryptoEnv payload9b) msg9b baseConfig =
      Except.error TaskErrorKind.malformedPayload :=
  c9_amended_missing_displayName_rejected (mkCryptoEnv payload9b) msg9b baseConfig
    payload9b rfl rfl rfl

/-- C3: for every signup bundle whose self-ident payload's
`transitServerIdent` is not string-equal to the server's own `selfIdentBlob`,
the task responds `{mechanism:'never'}`, closes the connection, and never
invokes `serverCheckUserAccount` or `serverCreateUserAccount`.  (The
soft-failure and early-return task disciplines are modelled from the spec;
see `validateSignupRequest` and `processSignup`.) -/
theorem c3_transit_mismatch_responds_never_without_store_calls
    (env : CryptoEnv) (bidEnv : BrowserIdEnv) (msg : ClientSignupBundle) (conn : Conn)
    (p : PersonSelfIdentPayload)
    (hparse : env.assertGetPersonSelfIdent msg.selfIdent = Except.ok p)
    (htransit : p.transitServerIdent ≠ conn.serverConfig.selfIdentBlob) :
    processSignup env bidEnv msg conn =
      { messages := [OutMessage.challenge CHALLENGE_NEVER], closed := true,
        storeCalls := [] } :=
  processSignup_eq_never_of_invalid env bidEnv msg conn
    (validateSignupRequest_eq_none_of_selfIdent_error env msg conn.clientPublicKey
      conn.serverConfig TaskErrorKind.keyMismatch
      (validateSelfIdent_keyMismatch env msg conn.serverConfig p hparse htransit))

def poco3 : Poco := { displayName := some "Bob", emails := none, email := none }

def payload3 : PersonSelfIdentPayload := mkPayload "root-3" "lt-3" poco3 "stale-blob"

def msg3 : ClientSignupBundle :=
  { selfIdent := "good-self-ident", clientAuths := ["auth-conn"],
    storeKeyring := "kr-3", because := [] }

/-- C3 witness: a concrete bundle naming a stale transit server gets
`never` and no account-store call. -/
theorem c3_witness :
    processSignup (mkCryptoEnv payload3) bidInert msg3 baseConn =
      { messages := [OutMessage.challenge CHALLENGE_NEVER], closed := true,
        storeCalls := [] } :=
  c3_transit_mismatch_responds_never_without_store_calls (mkCryptoEnv payload3) bidInert
    msg3 baseConn payload3 rfl (by decide)

theorem checkClientAuths_not_found (env : CryptoEnv) (authorizedKeys : List String)
    (clientPublicKey : String) (blobs : List String) :
    (∀ b ∈ blobs, ∃ a,
        env.assertCheckGetAttestation b "client" authorizedKeys = Except.ok a ∧
        a.authorizedKey ≠ clientPublicKey) →
    ∀ m, ∃ m2, checkClientAuths env authorizedKeys clientPublicKey blobs m false =
      Except.ok (m2, false) := by
  induction blobs with
  | nil => exact fun _ m => ⟨m, rfl⟩
  | cons blob rest ih =>
    intro h m
    obtain ⟨a, ha, hk⟩ := h blob (List.mem_cons_self blob rest)
    have hb : (a.authorizedKey == clientPublicKey) = false := by
      simp [hk]
    obtain ⟨m2, hm2⟩ := ih (fun b hbm => h b (List.mem_cons_of_mem blob hbm))
      (objSet m a.authorizedKey blob)
    refine ⟨m2, ?_⟩
    unfold checkClientAuths
    simp only [bind, Except.bind, ha, hb, Bool.false_or]
    exact hm2

theorem validateClientAuth_errors_when_conn_not_named (env : CryptoEnv)
    (msg : ClientSignupBundle) (clientPublicKey : String) (p : PersonSelfIdentPayload)
    (h : ∀ b ∈ msg.clientAuths, ∃ a,
        env.assertCheckGetAttestation b "client" [p.root.longtermSignPubKey] = Except.ok a ∧
        a.authorizedKey ≠ clientPublicKey) :
    ∃ e, validateClientAuth env msg clientPublicKey p = Except.error e := by
  obtain ⟨m2, hm2⟩ := checkClientAuths_not_found env [p.root.longtermSignPubKey]
    clientPublicKey msg.clientAuths h []
  cases hc : msg.clientAuths with
  | nil =>
    refine ⟨TaskErrorKind.malformedPayload, ?_⟩
    unfold validateClientAuth
    simp [hc, bind, Except.bind, throw, throwThe, MonadExceptOf.throw]
  | cons b rest =>
    refine ⟨TaskErrorKind.unauthorizedUserDataLeak, ?_⟩
    unfold validateClientAuth
    rw [hc] at hm2
    simp [hc, hm2, bind, Except.bind, pure, Except.pure,
      throw, throwThe, MonadExceptOf.throw]

/-- C2: a signup bundle whose client authorizations all verify against the
identity's long-term key but name only keys other than the connected peer's
(the UnauthorizedDataLeak class) produces an observable output byte-identical
to that of a structurally malformed bundle (the MalformedPayload class): the
same single `{type:'challenge', challenge:{mechanism:'never'}}` message and
connection close.  (The soft-failure discipline is modelled from the spec;
see `validateSignupRequest`.) -/
theorem c2_leak_and_malformed_byte_identical
    (env1 env2 : CryptoEnv) (bid1 bid2 : BrowserIdEnv)
    (msg1 msg2 : ClientSignupBundle) (conn1 conn2 : Conn)
    (p : PersonSelfIdentPayload) (e2 : TaskErrorKind)
    (hparse : env1.assertGetPersonSelfIdent msg1.selfIdent = Except.ok p)
    (hauths : ∀ b ∈ msg1.clientAuths, ∃ a,
        env1.assertCheckGetAttestation b "client" [p.root.longtermSignPubKey] = Except.ok a ∧
        a.authorizedKey ≠ conn1.clientPublicKey)
    (hmal : env2.assertGetPersonSelfIdent msg2.selfIdent = Except.error e2) :
    processSignup env1 bid1 msg1 conn1 = processSignup env2 bid2 msg2 conn2 ∧
    (processSignup env1 bid1 msg1 conn1).messages =
      [OutMessage.challenge CHALLENGE_NEVER] := by
  have h2 : processSignup env2 bid2 msg2 conn2 =
      { messages := [OutMessage.challenge CHALLENGE_NEVER], closed := true,
        storeCalls := [] } :=
    processSignup_eq_never_of_invalid _ _ _ _
      (validateSignupRequest_eq_none_of_selfIdent_error _ _ _ _ e2
        (validateSelfIdent_parse_error _ _ _ e2 hmal))
  have h1 : processSignup env1 bid1 msg1 conn1 =
      { messages := [OutMessage.challenge CHALLENGE_NEVER], closed := true,
        storeCalls := [] } := by
    by_cases ht : p.transitServerIdent = conn1.serverConfig.selfIdentBlob
    · by_cases hd : p.poco.displayName = none
      · exact processSignup_eq_never_of_invalid _ _ _ _
          (validateSignupRequest_eq_none_of_selfIdent_error _ _ _ _ _
            (validateSelfIdent_displayName_error _ _ _ p hparse ht hd))
      · obtain ⟨e, he⟩ := validateClientAuth_errors_when_conn_not_named env1 msg1
          conn1.clientPublicKey p hauths
        exact processSignup_eq_never_of_invalid _ _ _ _
          (validateSignupRequest_eq_none_of_clientAuth_error _ _ _ _ p e
            (validateSelfIdent_ok _ _ _ p hparse ht hd) he)
    · exact processSignup_eq_never_of_invalid _ _ _ _
        (validateSignupRequest_eq_none_of_selfIdent_error _ _ _ _ _
          (validateSelfIdent_keyMismatch _ _ _ p hparse ht))
  exact ⟨h1.trans h2.symm, by rw [h1]⟩

def poco2 : Poco := { displayName := some "Grace", emails := none, email := none }

def payload2 : PersonSelfIdentPayload := mkPayload "root-2" "lt-2" poco2 "our-blob"

def msg2leak : ClientSignupBundle :=
  { selfIdent := "good-self-ident", clientAuths := ["auth-other"],
    storeKeyring := "kr-2", because := [] }

def msg2mal : ClientSignupBundle :=
  { selfIdent := "garbage", clientAuths := ["auth-conn"],
    storeKeyring := "kr-2", because := [] }

/-- C2 witness: a concrete bundle with one valid authorization naming a key
other than the connection's, and a concrete malformed bundle, produce
identical `never` outputs. -/
theorem c2_witness :
    processSignup (mkCryptoEnv payload2) bidInert msg2leak baseConn =
      processSignup (mkCryptoEnv payload2) bidInert msg2mal baseConn ∧
    (processSignup (mkCryptoEnv payload2) bidInert msg2leak baseConn).messages =
      [OutMessage.challenge CHALLENGE_NEVER] :=
  c2_leak_and_malformed_byte_identical (mkCryptoEnv payload2) (mkCryptoEnv payload2)
    bidInert bidInert msg2leak msg2mal baseConn baseConn payload2
    TaskErrorKind.malformedPayload rfl
    (by
      intro b hb
      have hb2 : b = "auth-other" := by simpa [msg2leak] using hb
      subst hb2
      exact ⟨{ authorizedKey := "other-key" }, rfl, by decide⟩)
    rfl

/-- C4: in every run, `serverCheckUserAccount` is invoked before
`serverCreateUserAccount` is ever invoked for the same root signing key
(a create call only ever occurs as the second element of the trace, right
after the check for that same key), and whenever the check reports an
existing account the task responds `already-signed-up` and never invokes
`serverCreateUserAccount`.  (The early-return discipline is modelled from
the spec; see `processSignup`.) -/
theorem c4_check_always_precedes_create (env : CryptoEnv) (bidEnv : BrowserIdEnv)
    (msg : ClientSignupBundle) (conn : Conn) :
    (∀ k, StoreCall.createUserAccount k ∈ (processSignup env bidEnv msg conn).storeCalls →
      (processSignup env bidEnv msg conn).storeCalls =
        [StoreCall.checkUserAccount k, StoreCall.createUserAccount k]) ∧
    (∀ k, StoreCall.checkUserAccount k ∈ (processSignup env bidEnv msg conn).storeCalls →
      k ∈ conn.serverConfig.accounts →
      (processSignup env bidEnv msg conn).messages =
        [OutMessage.challenge CHALLENGE_ALREADY_SIGNED_UP] ∧
      StoreCall.createUserAccount k ∉ (processSignup env bidEnv msg conn).storeCalls) := by
  unfold processSignup
  cases hv : validateSignupRequest env msg conn.clientPublicKey conn.serverConfig with
  | none =>
    constructor
    · intro k hk
      simp [respondWithChallenge] at hk
    · intro k hk
      simp [respondWithChallenge] at hk
  | some vb =>
    by_cases hacc : vb.selfIdentPayload.root.rootSignPubKey ∈ conn.serverConfig.accounts
    · constructor
      · intro k hk
        simp [hacc, respondWithChallenge] at hk
      · intro k hk hmem
        simp [hacc, respondWithChallenge] at hk
        subst hk
        simp [hacc, respondWithChallenge]
    · cases hc : checkOrGenerateChallenge vb.selfIdentPayload bidEnv msg.because with
      | error e =>
        constructor
        · intro k hk
          simp [hacc, hc, respondWithChallenge] at hk
        · intro k hk hmem
          simp [hacc, hc, respondWithChallenge] at hk
          subst hk
          exact absurd hmem hacc
      | ok u =>
        by_cases hcr : conn.serverConfig.createOk = true
        · constructor
          · intro k hk
            simp [hacc, hc, hcr, respondWithChallenge] at hk ⊢
            subst hk
            simp
          · intro k hk hmem
            simp [hacc, hc, hcr, respondWithChallenge] at hk
            subst hk
            exact absurd hmem hacc
        · constructor
          · intro k hk
            simp [hacc, hc, hcr, respondWithChallenge] at hk ⊢
            subst hk
            simp
          · intro k hk hmem
            simp [hacc, hc, hcr, respondWithChallenge] at hk
            subst hk
            exact absurd hmem hacc

def poco4 : Poco := { displayName := some "Frank", emails := none, email := none }

def payload4 : PersonSelfIdentPayload := mkPayload "root-4" "lt-4" poco4 "our-blob"

def msg4 : ClientSignupBundle :=
  { selfIdent := "good-self-ident", clientAuths := ["auth-conn"],
    storeKeyring := "kr-4", because := [] }

/-- A connection to a server that already has an account for "root-4". -/
def conn4b : Conn :=
  { clientPublicKey := "conn-key",
    serverConfig := { selfIdentBlob := "our-blob", accounts := ["root-4"],
                      createOk := true } }

/-- C4 witness: a concrete successful signup calls check then create for the
same root key, and the same bundle against a server already holding that
account gets `already-signed-up` with no create call. -/
theorem c4_witness :
    (processSignup (mkCryptoEnv payload4) bidInert msg4 baseConn).storeCalls =
      [StoreCall.checkUserAccount "root-4", StoreCall.createUserAccount "root-4"] ∧
    ((processSignup (mkCryptoEnv payload4) bidInert msg4 conn4b).messages =
        [OutMessage.challenge CHALLENGE_ALREADY_SIGNED_UP] ∧
      StoreCall.createUserAccount "root-4" ∉
        (processSignup (mkCryptoEnv payload4) bidInert msg4 conn4b).storeCalls) :=
  ⟨(c4_check_always_precedes_create (mkCryptoEnv payload4) bidInert msg4 baseConn).1
      "root-4" (by decide),
    (c4_check_always_precedes_create (mkCryptoEnv payload4) bidInert msg4 conn4b).2
      "root-4" (by decide) (by decide)⟩

end Deuxdrop
